import Mathlib

set_option linter.unusedVariables false

/-!
Shallow embedding of the constraint-system failure-diagnosis layer declared in
lib/Sema/CSDiagnostics.h. Expressions, locator path elements and solver-owned
records are modelled structurally; method bodies that live in the header are
translated directly, while bodies that live in CSDiagnostics.cpp (absent from
the sources) are modelled from the specification and marked as such.
-/

/-- Expression node kinds the diagnostics layer discriminates on.
In the C++ AST, PrefixUnaryExpr, PostfixUnaryExpr, BinaryExpr and CallExpr are
the ApplyExpr subclasses relevant here; unresolvedMember models
UnresolvedMemberExpr and typeExpr models TypeExpr. -/
inductive ExprKind where
  | unresolvedMember
  | typeExpr
  | prefixUnary
  | postfixUnary
  | binary
  | call
  | other
deriving DecidableEq

/-- An AST expression node: an identity plus its dynamic kind. -/
structure Expr where
  id : Nat
  kind : ExprKind
deriving DecidableEq

/-- Whether a node's dynamic type is an ApplyExpr subclass, i.e. whether a
C++ dyn_cast to ApplyExpr would succeed on it. -/
def isApplyExprKind (k : ExprKind) : Bool :=
  decide (k = ExprKind.prefixUnary) || decide (k = ExprKind.postfixUnary) ||
  decide (k = ExprKind.binary) || decide (k = ExprKind.call)

/-- Constraint-locator path element kinds used by the diagnostics layer. -/
inductive PathEltKind where
  | typeParameterRequirement
  | conditionalRequirement
  | unresolvedMember
  | member
  | applyArgument
  | other
deriving DecidableEq

/-- A locator path element: its kind plus the two stored values; for
requirement elements getValue is the requirement index and getValue2 the
encoded RequirementKind. -/
structure PathElt where
  kind : PathEltKind
  value : Nat
  value2 : Nat
deriving DecidableEq

/-- A constraint locator: an anchor expression plus an ordered path. -/
structure ConstraintLocator where
  anchor : Expr
  path : List PathElt
deriving DecidableEq

/-- The first path element, as read by path.front() in the C++ source;
construction invariants guarantee the path is non-empty at every use site. -/
def ConstraintLocator.front (loc : ConstraintLocator) : PathElt :=
  loc.path.headD ⟨PathEltKind.other, 0, 0⟩

/-- Generic requirement kinds, in the AST's enumeration order. -/
inductive RequirementKind where
  | conformance
  | superclass
  | sameType
  | layout
deriving DecidableEq

/-- The integer encoding of a RequirementKind, as produced by static_cast. -/
def RequirementKind.toNat : RequirementKind → Nat
  | .conformance => 0
  | .superclass => 1
  | .sameType => 2
  | .layout => 3

/-- An opaque protocol-conformance record. -/
structure ProtocolConformance where
  id : Nat
deriving DecidableEq

/-- An opaque generic-signature reference. -/
structure GenericSignature where
  id : Nat
deriving DecidableEq

/-- An opaque value declaration. -/
structure ValueDecl where
  id : Nat
deriving DecidableEq

/-- One record of the solver's resolved-overload chain. The C++ chain is a
linked list through Previous pointers starting at the most recently resolved
record; it is modelled as a list in most-recent-first order. -/
structure ResolvedOverloadSetListItem where
  locator : ConstraintLocator
  choiceIdx : Nat
deriving DecidableEq

/-- The borrowed solver snapshot a diagnostic consults. Queries whose
implementations are outside this layer (parent lookup, anchor resolution,
conformance / signature / declaration lookup) appear as fields, per the
specification's external-interface contract. -/
structure ConstraintSystem where
  resolvedOverloadSets : List ResolvedOverloadSetListItem
  parentOf : Expr → Option Expr
  resolveAnchor : ConstraintLocator → Expr × Bool
  conformanceFor : ConstraintLocator → ProtocolConformance
  signatureFor : ConstraintLocator → Option GenericSignature
  declFor : ConstraintLocator → Option ValueDecl

/-- The while-loop of FailureDiagnostic::getResolvedOverload: walk the chain
and return the first record whose locator equals the queried one. -/
def resolvedOverloadChainFind :
    List ResolvedOverloadSetListItem → ConstraintLocator →
    Option ResolvedOverloadSetListItem
  | [], _ => none
  | r :: rest, loc =>
    if r.locator = loc then some r else resolvedOverloadChainFind rest loc

/-- FailureDiagnostic::getResolvedOverload, from the header: scans the
solver's resolved-overload chain starting at the most recent record. -/
def getResolvedOverload (cs : ConstraintSystem) (loc : ConstraintLocator) :
    Option ResolvedOverloadSetListItem :=
  resolvedOverloadChainFind cs.resolvedOverloadSets loc

/-- Modelled from the spec: FailureDiagnostic::computeAnchor is implemented in
CSDiagnostics.cpp, absent from the sources. Per the spec, anchor resolution
always terminates with a non-absent anchor plus a complexity flag; the
narrowing rules are AST-driven and abstracted as a snapshot field. -/
def computeAnchor (cs : ConstraintSystem) (loc : ConstraintLocator) :
    Expr × Bool :=
  cs.resolveAnchor loc

/-- Modelled from the spec: RequirementFailure::getConformanceForConditionalReq
is implemented in CSDiagnostics.cpp, absent from the sources. Per the spec the
conformance record is present only if the requirement is conditional, i.e.
derives from another conformance's where clause, which the locator records
with a final conditional-requirement path element. -/
def getConformanceForConditionalReq (cs : ConstraintSystem)
    (loc : ConstraintLocator) : Option ProtocolConformance :=
  match loc.path.getLast? with
  | some elt =>
    if elt.kind = PathEltKind.conditionalRequirement then
      some (cs.conformanceFor loc)
    else none
  | none => none

/-- Modelled from the spec: RequirementFailure::getSignature is implemented in
CSDiagnostics.cpp, absent from the sources. Per the spec the generic-signature
reference is present when the failure is not conditional; exactly one of
signature and conformance holds. -/
def getSignature (cs : ConstraintSystem) (loc : ConstraintLocator) :
    Option GenericSignature :=
  if (getConformanceForConditionalReq cs loc).isSome then none
  else cs.signatureFor loc

/-- The state of a constructed RequirementFailure: the base FailureDiagnostic
fields (enclosing expression context, locator, raw and resolved anchor,
complexity flag) plus the requirement-specific fields from the header. -/
structure RequirementFailure where
  expr : Option Expr
  locator : ConstraintLocator
  rawAnchor : Expr
  anchor : Expr
  hasComplexLocator : Bool
  conformance : Option ProtocolConformance
  signature : Option GenericSignature
  affectedDecl : ValueDecl
  apply : Option Expr
  reqKind : RequirementKind
deriving DecidableEq

/-- RequirementFailure::isConditional, from the header: the failure is
conditional exactly when the conformance record is present. -/
def RequirementFailure.isConditional (rf : RequirementFailure) : Bool :=
  rf.conformance.isSome

/-- The Apply-field initialization from the RequirementFailure constructor in
the header: when the enclosing expression context is null, parent lookup is
skipped and Apply stays null; otherwise Apply is the parent expression of the
raw anchor when that parent dyn_casts to an ApplyExpr, and null otherwise. -/
def applyFor (cs : ConstraintSystem) (expr : Option Expr)
    (rawAnchor : Expr) : Option Expr :=
  match expr with
  | none => none
  | some _ =>
    match cs.parentOf rawAnchor with
    | some parentExpr =>
      if isApplyExprKind parentExpr.kind then some parentExpr else none
    | none => none

/-- The RequirementFailure constructor, from the header. The C++ asserts are
fatal on violation and are modelled by returning none: the locator path must
be non-empty, its last element a type-parameter-requirement or
conditional-requirement whose encoded kind equals the constructed kind, the
affected declaration must resolve, and one of conformance / signature must be
present. When the enclosing expression context is null, parent lookup is
skipped and Apply stays null; otherwise Apply is the parent of the raw anchor
when that parent is an ApplyExpr. -/
def mkRequirementFailure (cs : ConstraintSystem) (expr : Option Expr)
    (kind : RequirementKind) (loc : ConstraintLocator) :
    Option RequirementFailure :=
  let conformance := getConformanceForConditionalReq cs loc
  let signature := getSignature cs loc
  if conformance.isNone ∧ signature.isNone then none
  else
    match cs.declFor loc with
    | none => none
    | some affectedDecl =>
      match loc.path.getLast? with
      | none => none
      | some last =>
        if (last.kind = PathEltKind.typeParameterRequirement ∨
            last.kind = PathEltKind.conditionalRequirement) ∧
            last.value2 = kind.toNat then
          let rawAnchor := loc.anchor
          let ac := computeAnchor cs loc
          let ap := applyFor cs expr rawAnchor
          some ⟨expr, loc, rawAnchor, ac.1, ac.2, conformance, signature,
                affectedDecl, ap, kind⟩
        else none

/-- RequirementFailure::getRequirementIndex, from the header: the value stored
in the locator's final path element. -/
def RequirementFailure.getRequirementIndex (rf : RequirementFailure) : Nat :=
  (rf.locator.path.getLastD ⟨PathEltKind.other, 0, 0⟩).value

/-- RequirementFailure::isOperator, from the header: whether the apply
expression is a prefix-unary, postfix-unary or binary operator invocation. -/
def RequirementFailure.isOperator (ap : Expr) : Bool :=
  decide (ap.kind = ExprKind.prefixUnary) ||
  decide (ap.kind = ExprKind.postfixUnary) ||
  decide (ap.kind = ExprKind.binary)

/-- The final condition of canDiagnoseFailure: Apply is present and is an
operator invocation, or Apply is present and the resolved anchor is a bare
type reference. This names the subterm Apply && (isOperator(Apply) ||
isa&lt;TypeExpr&gt;(anchor)) of the header's return expression. -/
def RequirementFailure.applySuppression (rf : RequirementFailure) : Bool :=
  match rf.apply with
  | some ap =>
    RequirementFailure.isOperator ap ||
    decide (rf.anchor.kind = ExprKind.typeExpr)
  | none => false

/-- RequirementFailure::canDiagnoseFailure, from the header: conditional
failures are always diagnosable; an unresolved-member anchor is only
diagnosable when the locator's first path element is an unresolved-member
step; otherwise diagnosable unless suppressed by the apply condition. -/
def RequirementFailure.canDiagnoseFailure (rf : RequirementFailure) : Bool :=
  if rf.isConditional then true
  else if rf.anchor.kind = ExprKind.unresolvedMember ∧
          rf.locator.front.kind ≠ PathEltKind.unresolvedMember then false
  else !rf.applySuppression

/-- The outcome of one diagnosis attempt: the returned flag plus the number
of error diagnostics pushed to the sink during the call. -/
structure DiagnosticOutcome where
  emitted : Bool
  errorCount : Nat
deriving DecidableEq

/-- A failure-diagnostic instance reduced to its diagnosis behaviour: the
outcome of its diagnoseAsError override and of its diagnoseAsNote override. -/
structure FailureDiagnosticImpl where
  diagnoseAsErrorOutcome : DiagnosticOutcome
  diagnoseAsNoteOutcome : DiagnosticOutcome

/-- Modelled from the spec: FailureDiagnostic::diagnose is implemented in
CSDiagnostics.cpp, absent from the sources. Per the spec, if asNote is false
it calls diagnoseAsError, if true it calls diagnoseAsNote, and returns
whether a diagnostic was emitted. -/
def FailureDiagnostic.diagnose (d : FailureDiagnosticImpl) (asNote : Bool) :
    DiagnosticOutcome :=
  if asNote then d.diagnoseAsNoteOutcome else d.diagnoseAsErrorOutcome

/-- Modelled from the spec: RequirementFailure::diagnoseAsError is implemented
in CSDiagnostics.cpp, absent from the sources. Per the spec the suppression
policy canDiagnoseFailure is evaluated before rendering; when it declines the
method emits nothing and returns false, otherwise it renders exactly one of
the three message templates, emitting one error diagnostic. -/
def RequirementFailure.diagnoseAsError (rf : RequirementFailure) :
    DiagnosticOutcome :=
  if rf.canDiagnoseFailure then ⟨true, 1⟩ else ⟨false, 0⟩

/-- GenericArgumentsMismatchFailure state from the header: the actual and
required bound generic types (opaque here) and every stored mismatch
position, plus the behaviour of addNoteForMismatch. Modelled from the spec:
addNoteForMismatch is implemented in CSDiagnostics.cpp, absent from the
sources; its documented contract is that it returns true exactly when it
attached a note for that position, and the spec bounds the user-visible
outcome at zero-or-one secondary note. -/
structure GenericArgumentsMismatchFailure where
  actual : Nat
  required : Nat
  mismatches : List Int
  noteFor : Int → Bool

/-- The loop of addNotesForMismatches, from the header: result is initially
false and each iteration executes result = result || addNoteForMismatch(m),
so the call on the right is skipped once result is true. Returns the final
result together with the list of positions actually passed to
addNoteForMismatch, in order. -/
def addNotesLoop (noteFor : Int → Bool) : Bool → List Int → Bool × List Int
  | result, [] => (result, [])
  | result, m :: rest =>
    if result then addNotesLoop noteFor true rest
    else
      let b := noteFor m
      let r := addNotesLoop noteFor b rest
      (r.1, m :: r.2)

/-- GenericArgumentsMismatchFailure::addNotesForMismatches, from the header. -/
def GenericArgumentsMismatchFailure.addNotesForMismatches
    (g : GenericArgumentsMismatchFailure) : Bool × List Int :=
  addNotesLoop g.noteFor false g.mismatches

/-- The attempt sequence the claim describes: every mismatch position up to
and including the first one for which a note is attached. -/
def attemptedUntilSuccess (noteFor : Int → Bool) : List Int → List Int
  | [] => []
  | m :: rest =>
    if noteFor m then [m] else m :: attemptedUntilSuccess noteFor rest

/-! Concrete solver snapshots and diagnostics used to exercise the theorems
on closed inputs. -/

/-- A raw anchor expression for a same-type failure inside an operator call. -/
def e2 : Expr := ⟨20, ExprKind.other⟩

/-- A binary-operator apply expression acting as the anchor's parent. -/
def bin2 : Expr := ⟨21, ExprKind.binary⟩

/-- A locator ending in a type-parameter same-type requirement element. -/
def loc2 : ConstraintLocator :=
  ⟨e2, [⟨PathEltKind.typeParameterRequirement, 0, 2⟩]⟩

/-- A snapshot whose parent index places the anchor inside a binary call. -/
def cs2 : ConstraintSystem :=
  ⟨[], fun _ => some bin2, fun l => (l.anchor, false), fun _ => ⟨0⟩,
   fun _ => some ⟨0⟩, fun _ => some ⟨0⟩⟩

/-- The same-type requirement failure constructed over cs2 and loc2. -/
def rf2 : RequirementFailure :=
  ⟨some e2, loc2, e2, e2, false, none, some ⟨0⟩, ⟨0⟩, some bin2,
   RequirementKind.sameType⟩

/-- A snapshot whose anchor resolution lands on an unresolved-member node. -/
def cs3 : ConstraintSystem :=
  ⟨[], fun _ => none, fun _ => (⟨30, ExprKind.unresolvedMember⟩, false),
   fun _ => ⟨0⟩, fun _ => some ⟨0⟩, fun _ => some ⟨0⟩⟩

/-- A locator whose first (and last) element is a requirement step, not an
unresolved-member step. -/
def loc3 : ConstraintLocator :=
  ⟨⟨31, ExprKind.other⟩, [⟨PathEltKind.typeParameterRequirement, 0, 2⟩]⟩

/-- The requirement failure constructed over cs3 and loc3 with no enclosing
expression context. -/
def rf3 : RequirementFailure :=
  ⟨none, loc3, ⟨31, ExprKind.other⟩, ⟨30, ExprKind.unresolvedMember⟩, false,
   none, some ⟨0⟩, ⟨0⟩, none, RequirementKind.sameType⟩

/-- A snapshot for a conditional-requirement failure. -/
def cs4 : ConstraintSystem :=
  ⟨[], fun _ => none, fun l => (l.anchor, false), fun _ => ⟨7⟩,
   fun _ => none, fun _ => some ⟨0⟩⟩

/-- A locator ending in conditional-requirement element number five. -/
def loc4 : ConstraintLocator :=
  ⟨⟨40, ExprKind.other⟩, [⟨PathEltKind.conditionalRequirement, 5, 0⟩]⟩

/-- The conditional requirement failure constructed over cs4 and loc4. -/
def rf4 : RequirementFailure :=
  ⟨none, loc4, ⟨40, ExprKind.other⟩, ⟨40, ExprKind.other⟩, false, some ⟨7⟩,
   none, ⟨0⟩, none, RequirementKind.conformance⟩

/-- A locator queried against the resolved-overload chain. -/
def loc8 : ConstraintLocator := ⟨⟨80, ExprKind.other⟩, []⟩

/-- A chain record whose locator does not match loc8. -/
def r8a : ResolvedOverloadSetListItem := ⟨⟨⟨81, ExprKind.other⟩, []⟩, 0⟩

/-- A chain record whose locator matches loc8. -/
def r8b : ResolvedOverloadSetListItem := ⟨loc8, 1⟩

/-- A snapshot holding a two-record resolved-overload chain. -/
def cs8 : ConstraintSystem :=
  ⟨[r8a, r8b], fun _ => none, fun l => (l.anchor, false), fun _ => ⟨0⟩,
   fun _ => none, fun _ => none⟩

/-- A diagnostic whose error path emits exactly one error diagnostic. -/
def d1 : FailureDiagnosticImpl := ⟨⟨true, 1⟩, ⟨false, 0⟩⟩

/-! Shared lemmas. -/

/-- Inversion of the RequirementFailure constructor: a successfully built
instance records the construction inputs and all asserted invariants. -/
theorem mkRequirementFailure_inv {cs : ConstraintSystem} {e : Option Expr}
    {kind : RequirementKind} {loc : ConstraintLocator}
    {rf : RequirementFailure}
    (h : mkRequirementFailure cs e kind loc = some rf) :
    rf.expr = e ∧ rf.locator = loc ∧ rf.reqKind = kind ∧
    rf.conformance = getConformanceForConditionalReq cs loc ∧
    rf.signature = getSignature cs loc ∧
    rf.anchor = (computeAnchor cs loc).1 ∧
    rf.apply = applyFor cs e loc.anchor ∧
    ¬((getConformanceForConditionalReq cs loc).isNone = true ∧
      (getSignature cs loc).isNone = true) ∧
    ∃ last, loc.path.getLast? = some last ∧
      (last.kind = PathEltKind.typeParameterRequirement ∨
       last.kind = PathEltKind.conditionalRequirement) ∧
      last.value2 = kind.toNat := by
  simp only [mkRequirementFailure] at h
  split at h
  · simp at h
  next hguard =>
    split at h
    next => simp at h
    next d hd =>
      split at h
      next => simp at h
      next last hlast =>
        split at h
        next hreq =>
          injection h with h
          subst h
          exact ⟨rfl, rfl, rfl, rfl, rfl, rfl, rfl, hguard,
                 last, hlast, hreq.1, hreq.2⟩
        next => simp at h

/-! Claim theorems. -/

/-- C1: for every failure-diagnostic instance whose diagnoseAsError override
honours the capability contract (at most one error diagnostic, returning
whether exactly one was emitted), diagnose(false) invokes diagnoseAsError and
returns true if and only if exactly one error diagnostic was emitted during
the call; it never emits more than one, and when it returns false no error
diagnostic was emitted. -/
theorem diagnose_false_error_contract (d : FailureDiagnosticImpl)
    (hle : d.diagnoseAsErrorOutcome.errorCount ≤ 1)
    (hiff : d.diagnoseAsErrorOutcome.emitted = true ↔
      d.diagnoseAsErrorOutcome.errorCount = 1) :
    FailureDiagnostic.diagnose d false = d.diagnoseAsErrorOutcome ∧
    ((FailureDiagnostic.diagnose d false).emitted = true ↔
      (FailureDiagnostic.diagnose d false).errorCount = 1) ∧
    (FailureDiagnostic.diagnose d false).errorCount ≤ 1 ∧
    ((FailureDiagnostic.diagnose d false).emitted = false →
      (FailureDiagnostic.diagnose d false).errorCount = 0) := by
  refine ⟨rfl, ?_, ?_, ?_⟩
  · simpa [FailureDiagnostic.diagnose] using hiff
  · simpa [FailureDiagnostic.diagnose] using hle
  · intro hf
    simp [FailureDiagnostic.diagnose] at hf ⊢
    have hne : ¬d.diagnoseAsErrorOutcome.errorCount = 1 := by
      intro hc
      rw [hiff.mpr hc] at hf
      exact absurd hf (by simp)
    omega

/-- Witness for C1 at a concrete diagnostic instance. -/
theorem diagnose_false_error_contract_witness :
    FailureDiagnostic.diagnose d1 false = d1.diagnoseAsErrorOutcome ∧
    ((FailureDiagnostic.diagnose d1 false).emitted = true ↔
      (FailureDiagnostic.diagnose d1 false).errorCount = 1) ∧
    (FailureDiagnostic.diagnose d1 false).errorCount ≤ 1 ∧
    ((FailureDiagnostic.diagnose d1 false).emitted = false →
      (FailureDiagnostic.diagnose d1 false).errorCount = 0) :=
  diagnose_false_error_contract d1 (by decide) (by decide)

/-- C2: for every non-conditional requirement failure whose Apply field holds
an operator invocation (prefix-unary, postfix-unary or binary), or whose
Apply field is present while the resolved anchor is a bare type reference,
canDiagnoseFailure returns false, and the requirement-failure error path
emits zero error diagnostics. -/
theorem requirement_operator_call_suppressed
    (cs : ConstraintSystem) (e : Option Expr) (kind : RequirementKind)
    (loc : ConstraintLocator) (rf : RequirementFailure) (ap : Expr)
    (hmk : mkRequirementFailure cs e kind loc = some rf)
    (hcond : rf.conformance = none)
    (hap : rf.apply = some ap)
    (hop : RequirementFailure.isOperator ap = true ∨
      rf.anchor.kind = ExprKind.typeExpr) :
    rf.canDiagnoseFailure = false ∧
    rf.diagnoseAsError = ⟨false, 0⟩ := by
  have hsup : rf.applySuppression = true := by
    rw [RequirementFailure.applySuppression, hap]
    rcases hop with h | h
    · simp [h]
    · simp [h]
  have hc : rf.canDiagnoseFailure = false := by
    simp [RequirementFailure.canDiagnoseFailure,
      RequirementFailure.isConditional, hcond, hsup]
  exact ⟨hc, by simp [RequirementFailure.diagnoseAsError, hc]⟩

/-- Witness for C2: a same-type requirement failure anchored in a
binary-operator call is suppressed and yields zero diagnostics. -/
theorem requirement_operator_call_suppressed_witness :
    rf2.canDiagnoseFailure = false ∧ rf2.diagnoseAsError = ⟨false, 0⟩ :=
  requirement_operator_call_suppressed cs2 (some e2) RequirementKind.sameType
    loc2 rf2 bin2 rfl rfl rfl (Or.inl rfl)

/-- C3: for every non-conditional requirement failure whose resolved anchor
is an unresolved-member expression, canDiagnoseFailure returns false unless
the first element of the locator's path is an unresolved-member step; when
the first element is such a step, this check does not suppress the
diagnostic, whose fate is decided by the final apply condition alone. -/
theorem requirement_unresolved_member_guard
    (cs : ConstraintSystem) (e : Option Expr) (kind : RequirementKind)
    (loc : ConstraintLocator) (rf : RequirementFailure)
    (hmk : mkRequirementFailure cs e kind loc = some rf)
    (hcond : rf.conformance = none)
    (hanchor : rf.anchor.kind = ExprKind.unresolvedMember) :
    (rf.locator.front.kind ≠ PathEltKind.unresolvedMember →
      rf.canDiagnoseFailure = false) ∧
    (rf.locator.front.kind = PathEltKind.unresolvedMember →
      rf.canDiagnoseFailure = !rf.applySuppression) := by
  constructor
  · intro hfront
    simp [RequirementFailure.canDiagnoseFailure,
      RequirementFailure.isConditional, hcond, hanchor, hfront]
  · intro hfront
    simp [RequirementFailure.canDiagnoseFailure,
      RequirementFailure.isConditional, hcond, hanchor, hfront]

/-- Witness for C3 at a concrete unresolved-member anchored failure whose
path starts with a requirement step. -/
theorem requirement_unresolved_member_guard_witness :
    rf3.canDiagnoseFailure = false :=
  (requirement_unresolved_member_guard cs3 none RequirementKind.sameType
    loc3 rf3 rfl rfl rfl).1 (by decide)

/-- C4: for every requirement failure that is conditional, i.e. whose
conformance record is present, canDiagnoseFailure returns true, regardless
of the anchor's kind, the locator's path, or any enclosing apply. -/
theorem requirement_conditional_always_diagnosable
    (cs : ConstraintSystem) (e : Option Expr) (kind : RequirementKind)
    (loc : ConstraintLocator) (rf : RequirementFailure)
    (hmk : mkRequirementFailure cs e kind loc = some rf)
    (hcond : rf.conformance.isSome = true) :
    rf.canDiagnoseFailure = true := by
  simp [RequirementFailure.canDiagnoseFailure,
    RequirementFailure.isConditional, hcond]

/-- Witness for C4 at a concrete conditional requirement failure. -/
theorem requirement_conditional_always_diagnosable_witness :
    rf4.canDiagnoseFailure = true :=
  requirement_conditional_always_diagnosable cs4 none
    RequirementKind.conformance loc4 rf4 rfl rfl

/-- C5: constructing a RequirementFailure, and hence any of its three
concrete subclasses, requires that the locator's path is non-empty and that
its last element is a type-parameter-requirement or conditional-requirement
element whose encoded RequirementKind equals the constructed kind; a
violation is a fatal assertion failure, modelled as a failed construction,
never a silently accepted state. -/
theorem mkRequirementFailure_locator_precondition
    (cs : ConstraintSystem) (e : Option Expr) (kind : RequirementKind)
    (loc : ConstraintLocator)
    (h : (mkRequirementFailure cs e kind loc).isSome = true) :
    loc.path ≠ [] ∧
    ∃ last, loc.path.getLast? = some last ∧
      (last.kind = PathEltKind.typeParameterRequirement ∨
       last.kind = PathEltKind.conditionalRequirement) ∧
      last.value2 = kind.toNat := by
  obtain ⟨rf, hrf⟩ := Option.isSome_iff_exists.mp h
  obtain ⟨-, -, -, -, -, -, -, -, last, hlast, hkind, hval⟩ :=
    mkRequirementFailure_inv hrf
  refine ⟨?_, last, hlast, hkind, hval⟩
  intro hnil
  rw [hnil] at hlast
  simp at hlast

/-- Witness for C5 at a concrete successful construction. -/
theorem mkRequirementFailure_locator_precondition_witness :
    loc2.path ≠ [] ∧
    ∃ last, loc2.path.getLast? = some last ∧
      (last.kind = PathEltKind.typeParameterRequirement ∨
       last.kind = PathEltKind.conditionalRequirement) ∧
      last.value2 = RequirementKind.sameType.toNat :=
  mkRequirementFailure_locator_precondition cs2 (some e2)
    RequirementKind.sameType loc2 rfl

/-- C6: every successfully constructed RequirementFailure holds exactly one
of the two fields: either the conformance record is present and the
generic-signature reference absent, or the conformance record is absent and
the signature present; never neither and never both. -/
theorem requirement_conformance_xor_signature
    (cs : ConstraintSystem) (e : Option Expr) (kind : RequirementKind)
    (loc : ConstraintLocator) (rf : RequirementFailure)
    (hmk : mkRequirementFailure cs e kind loc = some rf) :
    (rf.conformance.isSome = true ∧ rf.signature = none) ∨
    (rf.conformance = none ∧ rf.signature.isSome = true) := by
  obtain ⟨-, -, -, hconf, hsig, -, -, hguard, -⟩ := mkRequirementFailure_inv hmk
  rcases hc : getConformanceForConditionalReq cs loc with _ | c
  · right
    rcases hs : getSignature cs loc with _ | s
    · exact absurd ⟨by rw [hc]; rfl, by rw [hs]; rfl⟩ hguard
    · exact ⟨by rw [hconf, hc], by rw [hsig, hs]; rfl⟩
  · left
    refine ⟨by rw [hconf, hc]; rfl, ?_⟩
    rw [hsig, getSignature, hc]
    simp

/-- Witness for C6 at a concrete non-conditional construction. -/
theorem requirement_conformance_xor_signature_witness :
    (rf2.conformance.isSome = true ∧ rf2.signature = none) ∨
    (rf2.conformance = none ∧ rf2.signature.isSome = true) :=
  requirement_conformance_xor_signature cs2 (some e2)
    RequirementKind.sameType loc2 rf2 rfl

/-- C7: for every locator whose final path element is a
conditional-requirement element with index i, getRequirementIndex on a
RequirementFailure built over that locator returns i, and isConditional on
that instance returns true. -/
theorem conditional_requirement_index
    (cs : ConstraintSystem) (e : Option Expr) (kind : RequirementKind)
    (loc : ConstraintLocator) (rf : RequirementFailure) (i : Nat)
    (hmk : mkRequirementFailure cs e kind loc = some rf)
    (hlast : loc.path.getLast? =
      some ⟨PathEltKind.conditionalRequirement, i, kind.toNat⟩) :
    rf.getRequirementIndex = i ∧ rf.isConditional = true := by
  obtain ⟨-, hloc, -, hconf, -, -, -, -, -⟩ := mkRequirementFailure_inv hmk
  constructor
  · rw [RequirementFailure.getRequirementIndex, hloc,
      List.getLastD_eq_getLast?, hlast]
    rfl
  · rw [RequirementFailure.isConditional, hconf,
      getConformanceForConditionalReq, hlast]
    simp

/-- Witness for C7 at a conditional-requirement locator with index five. -/
theorem conditional_requirement_index_witness :
    rf4.getRequirementIndex = 5 ∧ rf4.isConditional = true :=
  conditional_requirement_index cs4 none RequirementKind.conformance
    loc4 rf4 5 rfl rfl

/-- The chain walk returns a record only when it is the first match, and
returns none exactly when no record in the chain matches. -/
theorem resolvedOverloadChainFind_spec
    (chain : List ResolvedOverloadSetListItem) (loc : ConstraintLocator) :
    (∀ r, resolvedOverloadChainFind chain loc = some r →
      r.locator = loc ∧ ∃ pre post, chain = pre ++ r :: post ∧
        ∀ q ∈ pre, q.locator ≠ loc) ∧
    (resolvedOverloadChainFind chain loc = none →
      ∀ r ∈ chain, r.locator ≠ loc) := by
  induction chain with
  | nil =>
    constructor
    · intro r hr
      simp [resolvedOverloadChainFind] at hr
    · intro _ r hr
      simp at hr
  | cons a rest ih =>
    constructor
    · intro r hr
      by_cases hal : a.locator = loc
      · rw [resolvedOverloadChainFind, if_pos hal] at hr
        injection hr with hr
        subst hr
        exact ⟨hal, [], rest, rfl, by simp⟩
      · rw [resolvedOverloadChainFind, if_neg hal] at hr
        obtain ⟨hr1, pre, post, hsplit, hpre⟩ := ih.1 r hr
        refine ⟨hr1, a :: pre, post, by rw [hsplit]; rfl, ?_⟩
        intro q hq
        rcases List.mem_cons.mp hq with hq | hq
        · rw [hq]; exact hal
        · exact hpre q hq
    · intro hnone r hr
      by_cases hal : a.locator = loc
      · rw [resolvedOverloadChainFind, if_pos hal] at hnone
        exact absurd hnone (by simp)
      · rw [resolvedOverloadChainFind, if_neg hal] at hnone
        rcases List.mem_cons.mp hr with hr | hr
        · rw [hr]; exact hal
        · exact ih.2 hnone r hr

/-- C8: getResolvedOverload walks the solver's resolved-overload chain from
the most recently resolved record and returns the first record whose locator
equals the queried locator, or an absent result when no record in the chain
matches. -/
theorem getResolvedOverload_first_match (cs : ConstraintSystem)
    (loc : ConstraintLocator) :
    (∀ r, getResolvedOverload cs loc = some r →
      r.locator = loc ∧
      ∃ pre post, cs.resolvedOverloadSets = pre ++ r :: post ∧
        ∀ q ∈ pre, q.locator ≠ loc) ∧
    (getResolvedOverload cs loc = none →
      ∀ r ∈ cs.resolvedOverloadSets, r.locator ≠ loc) :=
  resolvedOverloadChainFind_spec cs.resolvedOverloadSets loc

/-- Witness for C8 on a two-record chain whose second record matches. -/
theorem getResolvedOverload_first_match_witness :
    r8b.locator = loc8 ∧
    ∃ pre post, cs8.resolvedOverloadSets = pre ++ r8b :: post ∧
      ∀ q ∈ pre, q.locator ≠ loc8 :=
  (getResolvedOverload_first_match cs8 loc8).1 r8b rfl

/-- Once the accumulated result is true, the loop attempts no further
positions. -/
theorem addNotesLoop_true (noteFor : Int → Bool) (l : List Int) :
    addNotesLoop noteFor true l = (true, []) := by
  induction l with
  | nil => rfl
  | cons m rest ih => simp [addNotesLoop, ih]

/-- Starting from a false result, the positions actually attempted are
exactly those up to and including the first successful one. -/
theorem addNotesLoop_false_attempts (noteFor : Int → Bool) (l : List Int) :
    (addNotesLoop noteFor false l).2 = attemptedUntilSuccess noteFor l := by
  induction l with
  | nil => rfl
  | cons m rest ih =>
    by_cases hm : noteFor m
    · simp [addNotesLoop, attemptedUntilSuccess, hm, addNotesLoop_true]
    · simp [addNotesLoop, attemptedUntilSuccess, hm, ih]

/-- The attempt sequence contains at most one successful position. -/
theorem attemptedUntilSuccess_countP (noteFor : Int → Bool) (l : List Int) :
    (attemptedUntilSuccess noteFor l).countP noteFor ≤ 1 := by
  induction l with
  | nil => simp [attemptedUntilSuccess]
  | cons m rest ih =>
    by_cases hm : noteFor m
    · simp [attemptedUntilSuccess, hm, List.countP_cons]
    · simp [attemptedUntilSuccess, hm, List.countP_cons, ih]

/-- C9: addNotesForMismatches stops attempting further notes after the first
mismatch position for which a note is successfully attached, because the
accumulation uses short-circuit disjunction; hence the attempted positions
form the prefix up to the first success and at most one of them attaches a
note, so at most one secondary note is produced per diagnosis even though
every mismatch position is stored. -/
theorem addNotesForMismatches_short_circuit
    (g : GenericArgumentsMismatchFailure) :
    g.addNotesForMismatches.2 = attemptedUntilSuccess g.noteFor g.mismatches ∧
    g.addNotesForMismatches.2.countP g.noteFor ≤ 1 := by
  refine ⟨addNotesLoop_false_attempts g.noteFor g.mismatches, ?_⟩
  rw [GenericArgumentsMismatchFailure.addNotesForMismatches,
    addNotesLoop_false_attempts]
  exact attemptedUntilSuccess_countP g.noteFor g.mismatches

/-- C10: when a RequirementFailure is constructed with a null enclosing
expression context, its Apply field stays null and the operator-invocation /
bare-type-reference condition is false, so canDiagnoseFailure can return
false only through the unresolved-member branch, never on operator or
bare-type grounds. -/
theorem requirement_no_context_apply_null
    (cs : ConstraintSystem) (kind : RequirementKind)
    (loc : ConstraintLocator) (rf : RequirementFailure)
    (hmk : mkRequirementFailure cs none kind loc = some rf) :
    rf.apply = none ∧ rf.applySuppression = false ∧
    (rf.canDiagnoseFailure = false →
      rf.conformance = none ∧
      rf.anchor.kind = ExprKind.unresolvedMember ∧
      rf.locator.front.kind ≠ PathEltKind.unresolvedMember) := by
  obtain ⟨-, -, -, -, -, -, hap, -, -⟩ := mkRequirementFailure_inv hmk
  have hapn : rf.apply = none := by rw [hap]; rfl
  have hsup : rf.applySuppression = false := by
    rw [RequirementFailure.applySuppression, hapn]
  refine ⟨hapn, hsup, ?_⟩
  intro hfail
  rw [RequirementFailure.canDiagnoseFailure] at hfail
  by_cases hcond : rf.isConditional
  · rw [if_pos hcond] at hfail
    exact absurd hfail (by simp)
  · rw [if_neg hcond] at hfail
    have hcn : rf.conformance = none := by
      rw [RequirementFailure.isConditional] at hcond
      exact Option.not_isSome_iff_eq_none.mp hcond
    by_cases hbr : rf.anchor.kind = ExprKind.unresolvedMember ∧
        rf.locator.front.kind ≠ PathEltKind.unresolvedMember
    · exact ⟨hcn, hbr.1, hbr.2⟩
    · rw [if_neg hbr, hsup] at hfail
      exact absurd hfail (by simp)

/-- Witness for C10 at a concrete construction with no enclosing context. -/
theorem requirement_no_context_apply_null_witness :
    rf3.apply = none ∧ rf3.applySuppression = false ∧
    (rf3.canDiagnoseFailure = false →
      rf3.conformance = none ∧
      rf3.anchor.kind = ExprKind.unresolvedMember ∧
      rf3.locator.front.kind ≠ PathEltKind.unresolvedMember) :=
  requirement_no_context_apply_null cs3 RequirementKind.sameType loc3 rf3 rfl
